import Mathlib

/-!
Shallow embedding of the `uniswap_v3_analyze_fees` replay engine.

Chain interactions (RPC calls against the forked node) are abstracted by a
`ChainOracle` record of response functions; everything else is translated
directly from the Rust sources:
  * event model            — `src/fee_analyzer/simulation_events.rs`
  * csv event loader       — `src/fee_analyzer/csv_converter.rs` (`pool_events`)
  * position ledger / PnL  — `src/chain_interactions/collect.rs`
  * swap disambiguation    — `src/chain_interactions/swap.rs`
  * retry loops            — `mint.rs`, `collect.rs`, `swap.rs`, `burn.rs`
  * replay driver          — `src/fee_analyzer/mod.rs` (`run_simulation`)

Unsigned machine integers (u64/u128/U160/U256/U24) are modelled as `Nat`,
signed ones (I24/I256) as `Int`; addresses and tx hashes are opaque `Nat`s.
Rust panics (`unwrap`/`expect` on `checked_sub`, plain `u128` subtraction
underflow) are modelled as `Option.none` / `Except.error`.
-/

namespace FeeSim

/-- `UniswapV3Pool::Initialize` event (source name `Initialize`). -/
structure InitializeEvt where
  sqrtPriceX96 : Nat
  tick : Int
deriving DecidableEq

/-- `IUniswapV3Factory::PoolCreated` event. -/
structure PoolCreated where
  fee : Nat
  tickSpacing : Int
  pool : Nat
  token0 : Nat
  token1 : Nat
deriving DecidableEq

/-- `UniswapV3Pool::Mint` event. -/
structure Mint where
  amount : Nat
  amount0 : Nat
  amount1 : Nat
  owner : Nat
  sender : Nat
  tickLower : Int
  tickUpper : Int
deriving DecidableEq

/-- `UniswapV3Pool::Burn` event. -/
structure Burn where
  amount : Nat
  amount0 : Nat
  amount1 : Nat
  owner : Nat
  tickLower : Int
  tickUpper : Int
deriving DecidableEq

/-- `UniswapV3Pool::Swap` event. -/
structure Swap where
  amount0 : Int
  amount1 : Int
  liquidity : Nat
  recipient : Nat
  sender : Nat
  sqrtPriceX96 : Nat
  tick : Int
deriving DecidableEq

/-- `UniswapV3Pool::Collect` event (alias `CollectPool`). -/
structure CollectPool where
  amount0 : Nat
  amount1 : Nat
  owner : Nat
  recipient : Nat
  tickLower : Int
  tickUpper : Int
deriving DecidableEq

/-- `INonfungiblePositionManager::Collect` event (alias `CollectNpm`). -/
structure CollectNpm where
  tokenId : Nat
  recipient : Nat
  amount0 : Nat
  amount1 : Nat
deriving DecidableEq

/-- `INonfungiblePositionManager::IncreaseLiquidity` event. -/
structure IncreaseLiquidity where
  tokenId : Nat
  liquidity : Nat
  amount0 : Nat
  amount1 : Nat
deriving DecidableEq

/-- `INonfungiblePositionManager::DecreaseLiquidity` event. -/
structure DecreaseLiquidity where
  tokenId : Nat
  liquidity : Nat
  amount0 : Nat
  amount1 : Nat
deriving DecidableEq

/-- `IncreaseLiquidityWithParams` from `simulation_events.rs`: the event plus
the originator's desired input amounts recovered from calldata. -/
structure IncreaseLiquidityWithParams where
  amount_0_desired : Nat
  amount_1_desired : Nat
  event : IncreaseLiquidity
deriving DecidableEq

/-- `DecreaseLiquidityWithParams`: referenced throughout `burn.rs`,
`collect.rs` and `mod.rs` but its definition is not among the provided
sources; every use site accesses only the `event` field, so it is
reconstructed as the wrapper mirroring `IncreaseLiquidityWithParams`. -/
structure DecreaseLiquidityWithParams where
  event : DecreaseLiquidity
deriving DecidableEq

/-- The tagged event payload (`Event` in `simulation_events.rs`). -/
inductive Event where
  | poolCreated (e : PoolCreated)
  | mint (e : Mint)
  | burn (e : Burn)
  | swap (e : Swap)
  | collectPool (e : CollectPool)
  | collectNpm (e : CollectNpm)
  | increaseLiquidity (e : IncreaseLiquidityWithParams)
  | decreaseLiquidity (e : DecreaseLiquidity)
  | initializeEvt (e : InitializeEvt)
deriving DecidableEq

/-- `EventType` in `simulation_events.rs`. -/
inductive EventType where
  | poolCreated
  | mint
  | burn
  | swap
  | collectPool
  | collectNpm
  | increaseLiquidity
  | decreaseLiquidity
  | initializeEvt
deriving DecidableEq

/-- `Event::event_type`. -/
def Event.eventType : Event → EventType
  | .poolCreated _ => .poolCreated
  | .mint _ => .mint
  | .burn _ => .burn
  | .swap _ => .swap
  | .collectPool _ => .collectPool
  | .collectNpm _ => .collectNpm
  | .increaseLiquidity _ => .increaseLiquidity
  | .decreaseLiquidity _ => .decreaseLiquidity
  | .initializeEvt _ => .initializeEvt

/-- `SimulationEvent` envelope. The Rust `from` field is rendered `tx_from`
(`from` is a Lean keyword). -/
structure SimulationEvent where
  block : Nat
  tx_hash : Nat
  log_index : Nat
  pool_address : Nat
  tx_from : Nat
  event : Event
deriving DecidableEq

/-- `PoolConfig` (token addresses, fee tier, base/quote orientation flag). -/
structure PoolConfig where
  token0 : Nat
  token1 : Nat
  fee : Nat
  clanker_is_token0 : Bool
deriving DecidableEq

/-- `PositionAction` from `collect.rs`. -/
inductive PositionAction where
  | Open
  | IncreaseLiquidity
  | DecreaseLiquidity
  | ClosePosition
deriving DecidableEq

/-- `PositionInfo` from `collect.rs`: the per-segment ledger entry. -/
structure PositionInfo where
  token_id : Nat
  original_token_id : Nat
  lower_tick : Int
  upper_tick : Int
  index : Nat
  position_action : PositionAction
  closed : Bool
  block_in : Nat
  token_amount_in : Nat
  weth_amount_in : Nat
  sqrt_price_limit_x96_in : Nat
  tick_in : Int
  liquidity_in : Nat
  block_out : Nat
  token_amount_out : Nat
  weth_amount_out : Nat
  sqrt_price_limit_x96_out : Nat
  tick_out : Int
  fees_earned_token : Nat
  fees_earned_weth : Nat
  approx_starting_weth : Nat
  approx_ending_weth : Nat
  end_token_gain_separate : Int
  end_weth_gain_separate : Int
  end_weth_gain_converted : Int
deriving DecidableEq

/-- `ISwapRouter::ExactInputSingleParams`. -/
structure ExactInputSingleParams where
  tokenIn : Nat
  tokenOut : Nat
  fee : Nat
  recipient : Nat
  amountIn : Nat
  amountOutMinimum : Nat
  sqrtPriceLimitX96 : Nat
deriving DecidableEq

/-- `ISwapRouter::ExactOutputSingleParams`. -/
structure ExactOutputSingleParams where
  tokenIn : Nat
  tokenOut : Nat
  fee : Nat
  recipient : Nat
  amountOut : Nat
  amountInMaximum : Nat
  sqrtPriceLimitX96 : Nat
deriving DecidableEq

/-- `IQuoterV2::QuoteExactInputSingleParams`. -/
structure QuoteExactInputSingleParams where
  tokenIn : Nat
  tokenOut : Nat
  fee : Nat
  amountIn : Nat
  sqrtPriceLimitX96 : Nat
deriving DecidableEq

/-- `INonfungiblePositionManager::DecreaseLiquidityParams`. -/
structure DecreaseLiquidityParams where
  tokenId : Nat
  liquidity : Nat
  amount0Min : Nat
  amount1Min : Nat
  deadline : Nat
deriving DecidableEq

/-- `U256::MAX`, the deadline used by read-only simulations. -/
def uMax256 : Nat := 2 ^ 256 - 1

/-- Abstraction of the forked node: responses of the read-only RPC calls the
replay makes. Each field corresponds to one contract call; the values are
unconstrained, standing for whatever the chain would return. -/
structure ChainOracle where
  /-- `IQuoterV2.quoteExactInputSingle(...).amountOut` (read-only). -/
  quoteExactInputSingle : QuoteExactInputSingleParams → Nat
  /-- `ISwapRouter.exactInputSingle(...).call().amountOut` (read-only). -/
  exactInputSingleCall : ExactInputSingleParams → Nat
  /-- `position_manager.decreaseLiquidity(...).call()` → `(amount0, amount1)`. -/
  decreaseLiquidityCall : DecreaseLiquidityParams → Nat × Nat
  /-- amounts `(amount0, amount1)` of the `Collect` log produced by
  `collect_max_fees` for a given token id. -/
  collect : Nat → Nat × Nat
  /-- `pool.slot0()` → `(sqrtPriceX96, tick)`. -/
  slot0 : Nat × Int
  /-- `pool.feeGrowthGlobal0X128()`. -/
  feeGrowthGlobal0X128 : Nat
  /-- `pool.feeGrowthGlobal1X128()`. -/
  feeGrowthGlobal1X128 : Nat

/-- The `if pool_config.clanker_is_token0 { (a0, a1) } else { (a1, a0) }`
pattern used throughout `collect.rs` to orient raw `(amount0, amount1)`
pairs into `(clanker_token, weth)` order. -/
def orientPair (cfg : PoolConfig) (a0 a1 : Nat) : Nat × Nat :=
  if cfg.clanker_is_token0 then (a0, a1) else (a1, a0)

/-- `sim_swap_token_for_weth` (`collect.rs`): read-only exact-input-single
sell of `token_amount_out` clanker tokens; returns zero without calling the
router when the amount is zero. -/
def sim_swap_token_for_weth (o : ChainOracle) (cfg : PoolConfig)
    (token_amount_out : Nat) (swap_account : Nat) : Nat :=
  if token_amount_out = 0 then 0
  else
    let pair := if cfg.clanker_is_token0 then (cfg.token0, cfg.token1)
                else (cfg.token1, cfg.token0)
    o.exactInputSingleCall
      { tokenIn := pair.1, tokenOut := pair.2, fee := cfg.fee,
        recipient := swap_account, amountIn := token_amount_out,
        amountOutMinimum := 0, sqrtPriceLimitX96 := 0 }

/-- `DecreaseLiquidityResult` (`collect.rs`). -/
structure DecreaseLiquidityResult where
  token_out : Nat
  weth_out : Nat
deriving DecidableEq

/-- `sim_decrease_liquidity` (`collect.rs`): read-only decrease of `liquidity`
with deadline `U256::MAX`, oriented into `(token_out, weth_out)`. -/
def sim_decrease_liquidity (o : ChainOracle) (cfg : PoolConfig)
    (token_id : Nat) (liquidity : Nat) : DecreaseLiquidityResult :=
  let ret := o.decreaseLiquidityCall
    { tokenId := token_id, liquidity := liquidity,
      amount0Min := 0, amount1Min := 0, deadline := uMax256 }
  let pair := orientPair cfg ret.1 ret.2
  { token_out := pair.1, weth_out := pair.2 }

/-- `collect_max_fees` (`collect.rs`): drains the position's accrued fees with
`u128::MAX` on both sides and yields the `Collect` log's `(amount0, amount1)`.
(The retry loop around the transaction is modelled separately by
`run_tx_with_retries`.) -/
def collect_max_fees (o : ChainOracle) (token_id : Nat) : Nat × Nat :=
  o.collect token_id

/-- `close_out_position_info` (`collect.rs`): collects fees, snapshots slot0,
determines the closing amounts (case (1) full decrease event, case (2)
partial decrease event plus simulated residual, case (3) no event: simulated
full decrease), then fills in the valuation fields. `none` models the panic
of the source's unchecked `u128` subtraction `liquidity_in - event.liquidity`
when the event's liquidity exceeds the segment's. -/
def close_out_position_info (o : ChainOracle) (cfg : PoolConfig)
    (minter swap_account : Nat) (token_id : Nat) (position_info : PositionInfo)
    (block_out : Nat) (dl : Option DecreaseLiquidityWithParams) :
    Option PositionInfo :=
  let collectLog := collect_max_fees o token_id
  let fees := orientPair cfg collectLog.1 collectLog.2
  let p1 := { position_info with
    closed := true, block_out := block_out,
    fees_earned_token := fees.1, fees_earned_weth := fees.2,
    sqrt_price_limit_x96_out := o.slot0.1, tick_out := o.slot0.2 }
  let outs? : Option (Nat × Nat) :=
    match dl with
    | some ev =>
      let dlOut := orientPair cfg ev.event.amount0 ev.event.amount1
      if p1.liquidity_in = ev.event.liquidity then
        some dlOut
      else if ev.event.liquidity ≤ p1.liquidity_in then
        let r := sim_decrease_liquidity o cfg token_id
          (p1.liquidity_in - ev.event.liquidity)
        some (r.token_out + dlOut.1, r.weth_out + dlOut.2)
      else
        none
    | none =>
      let r := sim_decrease_liquidity o cfg token_id p1.liquidity_in
      some (r.token_out, r.weth_out)
  match outs? with
  | none => none
  | some outs =>
    let p2 := { p1 with token_amount_out := outs.1, weth_amount_out := outs.2 }
    let token_amount_to_sell := p2.token_amount_out + p2.fees_earned_token
    let token_converted_to_weth :=
      sim_swap_token_for_weth o cfg token_amount_to_sell swap_account
    let approx_ending :=
      token_converted_to_weth + p2.weth_amount_out + p2.fees_earned_weth
    some { p2 with
      approx_ending_weth := approx_ending,
      end_weth_gain_separate :=
        (p2.weth_amount_out : Int) - (p2.weth_amount_in : Int)
          + (p2.fees_earned_weth : Int),
      end_token_gain_separate :=
        (p2.token_amount_out : Int) - (p2.token_amount_in : Int)
          + (p2.fees_earned_token : Int),
      end_weth_gain_converted :=
        (approx_ending : Int) - (p2.approx_starting_weth : Int) }

/-- `create_position_info_from_mint_event` (`collect.rs`): builds the fresh
`Open` segment. The starting valuation sells the token side unless the
clanker-side fee-growth global is zero (first-mint guard) or the token input
is zero; `none` models the `Mint::try_from` conversion error when the passed
envelope is not a mint event. -/
def create_position_info_from_mint_event (o : ChainOracle) (cfg : PoolConfig)
    (swap_account : Nat) (original_mint_event : SimulationEvent)
    (token_id original_token_id : Nat) : Option PositionInfo :=
  match original_mint_event.event with
  | .mint mint_event =>
    let ins := orientPair cfg mint_event.amount0 mint_event.amount1
    let fee_growth_check :=
      if cfg.clanker_is_token0 then o.feeGrowthGlobal0X128
      else o.feeGrowthGlobal1X128
    let token_converted_to_weth :=
      if 0 < ins.1 ∧ 0 < fee_growth_check then
        sim_swap_token_for_weth o cfg ins.1 swap_account
      else 0
    some {
      token_id := token_id,
      original_token_id := original_token_id,
      index := 0,
      lower_tick := mint_event.tickLower,
      upper_tick := mint_event.tickUpper,
      tick_in := o.slot0.2,
      tick_out := 0,
      closed := false,
      block_in := original_mint_event.block,
      token_amount_in := ins.1,
      weth_amount_in := ins.2,
      sqrt_price_limit_x96_in := o.slot0.1,
      liquidity_in := mint_event.amount,
      block_out := 0,
      token_amount_out := 0,
      weth_amount_out := 0,
      sqrt_price_limit_x96_out := 0,
      fees_earned_token := 0,
      fees_earned_weth := 0,
      position_action := .Open,
      approx_ending_weth := 0,
      approx_starting_weth := token_converted_to_weth + ins.2,
      end_token_gain_separate := 0,
      end_weth_gain_separate := 0,
      end_weth_gain_converted := 0 }
  | _ => none

/-- `pool_collect_fees_post_increase_liquidity` (`collect.rs`): closes the
active segment (no decrease event: case (3)) and opens the follow-up
`IncreaseLiquidity` segment with summed inputs and summed liquidity. The Rust
function mutates the previous segment in place and returns the new one; here
the pair `(closed previous, new)` is returned. -/
def pool_collect_fees_post_increase_liquidity (o : ChainOracle)
    (cfg : PoolConfig) (minter swap_account : Nat) (token_id : Nat)
    (position_info : PositionInfo) (block_out : Nat)
    (increase_liquidity_event : IncreaseLiquidityWithParams) :
    Option (PositionInfo × PositionInfo) :=
  match close_out_position_info o cfg minter swap_account token_id
      position_info block_out none with
  | none => none
  | some closed_position =>
    let incs := orientPair cfg increase_liquidity_event.event.amount0
      increase_liquidity_event.event.amount1
    let token_start := closed_position.token_amount_in + incs.1
    let weth_start := closed_position.weth_amount_in + incs.2
    let token_converted_to_weth :=
      sim_swap_token_for_weth o cfg token_start swap_account
    let starting_weth := token_converted_to_weth + weth_start
    some (closed_position, {
      token_id := token_id,
      original_token_id := closed_position.original_token_id,
      index := closed_position.index + 1,
      lower_tick := closed_position.lower_tick,
      upper_tick := closed_position.upper_tick,
      tick_in := closed_position.tick_out,
      tick_out := 0,
      closed := false,
      block_in := block_out,
      token_amount_in := token_start,
      weth_amount_in := weth_start,
      sqrt_price_limit_x96_in := closed_position.sqrt_price_limit_x96_out,
      liquidity_in := closed_position.liquidity_in
        + increase_liquidity_event.event.liquidity,
      block_out := 0,
      token_amount_out := 0,
      weth_amount_out := 0,
      sqrt_price_limit_x96_out := 0,
      fees_earned_token := 0,
      fees_earned_weth := 0,
      position_action := .IncreaseLiquidity,
      approx_starting_weth := starting_weth,
      approx_ending_weth := 0,
      end_token_gain_separate := 0,
      end_weth_gain_separate := 0,
      end_weth_gain_converted := 0 })

/-- `pool_collect_fees_post_decrease_liquidity` (`collect.rs`): closes the
active segment against the decrease event and appends either a zeroed
terminal `ClosePosition` segment (full close) or a `DecreaseLiquidity`
segment carrying the residuals (non-full). `none` models the panics of the
source's `checked_sub(...).expect(...)` calls and of `close_out_position_info`. -/
def pool_collect_fees_post_decrease_liquidity (o : ChainOracle)
    (cfg : PoolConfig) (minter swap_account : Nat) (token_id : Nat)
    (position_info : PositionInfo) (block_out : Nat)
    (decrease_liquidity_event : DecreaseLiquidityWithParams) :
    Option (PositionInfo × PositionInfo) :=
  match close_out_position_info o cfg minter swap_account token_id
      position_info block_out (some decrease_liquidity_event) with
  | none => none
  | some closed_position =>
    if closed_position.liquidity_in = decrease_liquidity_event.event.liquidity
    then
      some (closed_position, {
        token_id := token_id,
        original_token_id := closed_position.original_token_id,
        index := closed_position.index + 1,
        lower_tick := closed_position.lower_tick,
        upper_tick := closed_position.upper_tick,
        closed := true,
        block_in := block_out,
        token_amount_in := 0,
        weth_amount_in := 0,
        sqrt_price_limit_x96_in := 0,
        tick_in := 0,
        liquidity_in := 0,
        block_out := 0,
        token_amount_out := 0,
        weth_amount_out := 0,
        sqrt_price_limit_x96_out := 0,
        tick_out := 0,
        fees_earned_token := 0,
        fees_earned_weth := 0,
        position_action := .ClosePosition,
        approx_ending_weth := 0,
        approx_starting_weth := 0,
        end_token_gain_separate := 0,
        end_weth_gain_separate := 0,
        end_weth_gain_converted := 0 })
    else
      let dlOuts := orientPair cfg decrease_liquidity_event.event.amount0
        decrease_liquidity_event.event.amount1
      if dlOuts.1 ≤ closed_position.token_amount_in then
        if dlOuts.2 ≤ closed_position.weth_amount_in then
          let token_start := closed_position.token_amount_in - dlOuts.1
          let weth_start := closed_position.weth_amount_in - dlOuts.2
          let token_converted_to_weth :=
            sim_swap_token_for_weth o cfg token_start swap_account
          let starting_weth := token_converted_to_weth + weth_start
          some (closed_position, {
            token_id := token_id,
            original_token_id := closed_position.original_token_id,
            index := closed_position.index + 1,
            closed := false,
            lower_tick := closed_position.lower_tick,
            upper_tick := closed_position.upper_tick,
            tick_in := closed_position.tick_out,
            tick_out := 0,
            block_in := block_out,
            token_amount_in := token_start,
            weth_amount_in := weth_start,
            sqrt_price_limit_x96_in := closed_position.sqrt_price_limit_x96_out,
            liquidity_in := closed_position.liquidity_in
              - decrease_liquidity_event.event.liquidity,
            block_out := 0,
            token_amount_out := 0,
            weth_amount_out := 0,
            sqrt_price_limit_x96_out := 0,
            fees_earned_token := 0,
            fees_earned_weth := 0,
            position_action := .DecreaseLiquidity,
            approx_starting_weth := starting_weth,
            approx_ending_weth := 0,
            end_token_gain_separate := 0,
            end_weth_gain_separate := 0,
            end_weth_gain_converted := 0 })
        else none
      else none

/-- `pool_close_out_position` (`collect.rs`): end-of-stream close with no
decrease event. -/
def pool_close_out_position (o : ChainOracle) (cfg : PoolConfig)
    (minter swap_account : Nat) (token_id : Nat)
    (position_info : PositionInfo) (block_out : Nat) : Option PositionInfo :=
  close_out_position_info o cfg minter swap_account token_id position_info
    block_out none

/-- `SwapParams` (`swap.rs`). -/
structure SwapParams where
  token_in : Nat
  token_out : Nat
  amount_in : Nat
  amount_out : Nat
  fee : Nat
deriving DecidableEq

/-- `SwapDirection` (`swap.rs`). -/
inductive SwapDirection where
  | exactInput
  | exactOutput
deriving DecidableEq

/-- The router call a replayed swap submits. -/
inductive RouterCall where
  | exactInputSingle (p : ExactInputSingleParams)
  | exactOutputSingle (p : ExactOutputSingleParams)
deriving DecidableEq

/-- `swap_params` (`swap.rs`): recover token direction and absolute amounts
from the signed event pair; `token0`/`token1`/`fee` are the pool's values
(`cfg`). -/
def swap_params (cfg : PoolConfig) (swap_event : Swap) : SwapParams :=
  if swap_event.amount0 < 0 then
    { token_in := cfg.token1, token_out := cfg.token0,
      amount_in := swap_event.amount1.natAbs,
      amount_out := swap_event.amount0.natAbs, fee := cfg.fee }
  else
    { token_in := cfg.token0, token_out := cfg.token1,
      amount_in := swap_event.amount0.natAbs,
      amount_out := swap_event.amount1.natAbs, fee := cfg.fee }

/-- The quoter parameters `swap_direction` submits for a given `SwapParams`. -/
def quoteParamsOf (sp : SwapParams) : QuoteExactInputSingleParams :=
  { tokenIn := sp.token_in, tokenOut := sp.token_out, fee := sp.fee,
    amountIn := sp.amount_in, sqrtPriceLimitX96 := 0 }

/-- `swap_direction` (`swap.rs`): quote exact-in at the recorded input; the
swap is exact-in iff the quote equals the recorded output. -/
def swap_direction (o : ChainOracle) (sp : SwapParams) : SwapDirection :=
  if o.quoteExactInputSingle (quoteParamsOf sp) = sp.amount_out then
    .exactInput
  else
    .exactOutput

/-- `pool_swap` (`swap.rs`): dispatch to `pool_swap_exact_input` or
`pool_swap_exact_output`; the value is the router call submitted (the
surrounding retry/verification is modelled by `run_tx_with_retries`). -/
def pool_swap (o : ChainOracle) (cfg : PoolConfig) (swap_event : Swap)
    (swapper : Nat) : RouterCall :=
  let sp := swap_params cfg swap_event
  match swap_direction o sp with
  | .exactInput =>
    .exactInputSingle
      { tokenIn := sp.token_in, tokenOut := sp.token_out, fee := sp.fee,
        recipient := swapper, amountIn := sp.amount_in,
        amountOutMinimum := 0, sqrtPriceLimitX96 := 0 }
  | .exactOutput =>
    .exactOutputSingle
      { tokenIn := sp.token_in, tokenOut := sp.token_out, fee := sp.fee,
        recipient := swapper, amountOut := sp.amount_out,
        amountInMaximum := sp.amount_in, sqrtPriceLimitX96 := 0 }

/-- Outcome of one transaction attempt: `sendErr` is an error from
`.send().await`, `receiptErr` from `.get_receipt().await`, `badStatus` a
receipt whose status is not success. -/
inductive AttemptOutcome where
  | success
  | badStatus
  | receiptErr
  | sendErr
deriving DecidableEq

/-- Errors of the transaction-submission loops. -/
inductive TxError where
  | transport
  | exhausted
  | failed
deriving DecidableEq

/-- The retry loop shared (textually identical) by `pool_mint`,
`pool_increase_liquidity` (`mint.rs`), `collect_max_fees` (`collect.rs`),
`pool_swap_exact_input` and `pool_swap_exact_output` (`swap.rs`):
`while attempts < max_attempts` with `i` the index of the next attempt and
`fuel = max_attempts - attempts`. A `badStatus` receipt or a `receiptErr`
consumes an attempt and retries; a `sendErr` propagates immediately through
the `?` on `.send().await`; exhaustion yields the
`Failed to ... after 4 attempts` error. -/
def attempt_tx_from (outcomes : Nat → AttemptOutcome) :
    Nat → Nat → Except TxError Unit
  | _, 0 => .error .exhausted
  | i, fuel + 1 =>
    match outcomes i with
    | .success => .ok ()
    | .sendErr => .error .transport
    | .badStatus => attempt_tx_from outcomes (i + 1) fuel
    | .receiptErr => attempt_tx_from outcomes (i + 1) fuel

/-- A full run of the shared retry loop with `max_attempts = 4`. -/
def run_tx_with_retries (outcomes : Nat → AttemptOutcome) :
    Except TxError Unit :=
  attempt_tx_from outcomes 0 4

/-- Modelled from the claim wording (retry policy as the spec states it):
every failed attempt — non-success receipt or transport failure of any kind
— counts as one of up to four attempts before aborting. Kept separate from
`attempt_tx_from`, which is translated from the source. -/
def attempt_tx_from_specC7 (outcomes : Nat → AttemptOutcome) :
    Nat → Nat → Except TxError Unit
  | _, 0 => .error .exhausted
  | i, fuel + 1 =>
    match outcomes i with
    | .success => .ok ()
    | _ => attempt_tx_from_specC7 outcomes (i + 1) fuel

/-- The spec-worded retry loop with four attempts. -/
def run_tx_specC7 (outcomes : Nat → AttemptOutcome) : Except TxError Unit :=
  attempt_tx_from_specC7 outcomes 0 4

/-- `pool_burn` (`burn.rs`) as a submission discipline: one single attempt,
`.send().await?`/`.get_receipt().await?` propagate transport errors, a
non-success receipt is `bail!("Failed to burn")`. No loop. -/
def pool_burn_tx (outcomes : Nat → AttemptOutcome) : Except TxError Unit :=
  match outcomes 0 with
  | .success => .ok ()
  | .badStatus => .error .failed
  | .receiptErr => .error .transport
  | .sendErr => .error .transport

/-- The nine per-variant event lists produced by the CSV readers in
`csv_converter.rs`, already parsed (file/row parsing is out of scope). -/
structure CSVInputs where
  initialize_events : List SimulationEvent
  swap_events : List SimulationEvent
  mint_events : List SimulationEvent
  burn_events : List SimulationEvent
  collect_pool_events : List SimulationEvent
  collect_npm_events : List SimulationEvent
  pool_created_events : List SimulationEvent
  increase_liquidity_events : List SimulationEvent
  decrease_liquidity_events : List SimulationEvent

/-- `Ord for SimulationEvent`: lexicographic on `(block, log_index)`. -/
def SimulationEvent.le (a b : SimulationEvent) : Bool :=
  if a.block = b.block then a.log_index ≤ b.log_index else a.block < b.block

/-- Insertion step of the sort `pool_events` applies. -/
def insertEvent (x : SimulationEvent) :
    List SimulationEvent → List SimulationEvent
  | [] => [x]
  | y :: ys => if SimulationEvent.le x y then x :: y :: ys
               else y :: insertEvent x ys

/-- `simulation_events.sort()` in `pool_events`, by `(block, log_index)`. -/
def sortEvents : List SimulationEvent → List SimulationEvent
  | [] => []
  | x :: xs => insertEvent x (sortEvents xs)

/-- `pool_events` (`csv_converter.rs`): checks the CollectNpm/CollectPool
count precondition, then concatenates all nine converted lists in the
source's order and sorts by `(block, log_index)`. -/
def pool_events (inp : CSVInputs) : Except String (List SimulationEvent) :=
  if inp.collect_npm_events.length ≠ inp.collect_pool_events.length then
    .error "Collect npm events and collect pool events have different lengths, check if the same block range is used for all events or if positions are being created without use of the position manager"
  else
    .ok (sortEvents
      (inp.initialize_events ++ inp.pool_created_events ++ inp.mint_events
        ++ inp.burn_events ++ inp.collect_pool_events ++ inp.swap_events
        ++ inp.collect_npm_events ++ inp.increase_liquidity_events
        ++ inp.decrease_liquidity_events))

/-- `Except` result inspection used by the loader theorems. -/
def isErr {ε α : Type} : Except ε α → Bool
  | .error _ => true
  | .ok _ => false

/-- Association-list lookup for `token_id_map : HashMap<U256, U256>`. -/
def lookupMap : List (Nat × Nat) → Nat → Option Nat
  | [], _ => none
  | (k, v) :: rest, key => if k = key then some v else lookupMap rest key

/-- Association-list lookup for `position_info : HashMap<U256, Vec<_>>`. -/
def lookupLedger : List (Nat × List PositionInfo) → Nat →
    Option (List PositionInfo)
  | [], _ => none
  | (k, v) :: rest, key =>
    if k = key then some v else lookupLedger rest key

/-- In-place update of an existing ledger entry (`get_mut` semantics). -/
def updateLedger : List (Nat × List PositionInfo) → Nat →
    List PositionInfo → List (Nat × List PositionInfo)
  | [], _, _ => []
  | (k, v) :: rest, key, newV =>
    if k = key then (k, newV) :: rest
    else (k, v) :: updateLedger rest key newV

/-- The driver's mutable state (`PoolAnalyzer` fields the loop touches).
`next_token_id` stands in for the live token ids the forked position manager
assigns to fresh mints (the chain returns them; modelled as a counter). -/
structure SimState where
  token_id_map : List (Nat × Nat)
  position_info : List (Nat × List PositionInfo)
  next_token_id : Nat
deriving DecidableEq

/-- The driver state at the start of `run_simulation`. -/
def initSimState : SimState :=
  { token_id_map := [], position_info := [], next_token_id := 1 }

/-- The event-consumption loop of `run_simulation` (`mod.rs`), one-event
lookahead included. Chain transactions (token transfers, mint, burn, swap
submissions) are assumed to succeed — their failure modes are modelled
separately by the retry embedding — so only ledger bookkeeping and
control flow remain. `.error` carries the source's `bail!`/`context`
message; panics (`unwrap` on a missing map entry) are
`"panic: ..."` errors. The source checks the peeked event's type, pops it,
and then converts it (`try_into`); here the two steps are fused into one
match on the payload, which dispatches identically. -/
def runEvents (o : ChainOracle) (cfg : PoolConfig)
    (mint_account swap_account : Nat) :
    SimState → List SimulationEvent → Except String SimState
  | st, [] => .ok st
  | st, [e] =>
    match e.event with
    | .poolCreated _ => .error "No events after pool created"
    | .initializeEvt _ =>
      .error "Pool initialize events should be handled by pool created event"
    | .mint _ => .error "No events after mint"
    | .burn _ => .error "No events after burn"
    | .increaseLiquidity _ =>
      .error "Increase liquidity event not processed in mint handling"
    | .decreaseLiquidity _ =>
      .error "Decrease liquidity event not processed in burn handling"
    | .swap _ => .ok st
    | .collectPool _ => .ok st
    | .collectNpm _ => .ok st
  | st, e :: e2 :: rest =>
    match e.event with
    | .poolCreated _ =>
      match e2.event with
      | .initializeEvt _ => runEvents o cfg mint_account swap_account st rest
      | _ => .error "Pool initialize event was not event after pool created"
    | .initializeEvt _ =>
      .error "Pool initialize events should be handled by pool created event"
    | .mint _ =>
      match e2.event with
      | .increaseLiquidity il =>
        match lookupMap st.token_id_map il.event.tokenId with
        | some token_id =>
          match lookupLedger st.position_info token_id with
          | none => .error "panic: position info entry missing"
          | some ps =>
            match ps.getLast? with
            | none => .error "Position info not found for increase liquidity"
            | some position =>
              match pool_collect_fees_post_increase_liquidity o cfg
                  mint_account swap_account token_id position e.block il with
              | none => .error "panic: close_out_position_info"
              | some (closedP, newP) =>
                runEvents o cfg mint_account swap_account
                  { st with position_info := (updateLedger st.position_info
                      token_id (ps.dropLast ++ [closedP, newP])) } rest
        | none =>
          let token_id := st.next_token_id
          match create_position_info_from_mint_event o cfg swap_account e
              token_id il.event.tokenId with
          | none => .error "Event is not Mint"
          | some position =>
            runEvents o cfg mint_account swap_account
              { token_id_map := (il.event.tokenId, token_id)
                  :: st.token_id_map,
                position_info := (token_id, [position]) :: st.position_info,
                next_token_id := st.next_token_id + 1 } rest
      | _ => .error "Increase liquidity event was not event after mint"
    | .swap _ => runEvents o cfg mint_account swap_account st (e2 :: rest)
    | .burn _ =>
      match e2.event with
      | .collectPool _ => runEvents o cfg mint_account swap_account st rest
      | .decreaseLiquidity dlr =>
        match lookupMap st.token_id_map dlr.tokenId with
        | none =>
          .error "Token id not found for Burn, mismatch between burn and mint position manager events"
        | some token_id =>
          match lookupLedger st.position_info token_id with
          | none => .error "panic: position info entry missing"
          | some ps =>
            match ps.getLast? with
            | none => .error "Position info not found DL"
            | some position =>
              match pool_collect_fees_post_decrease_liquidity o cfg
                  mint_account swap_account token_id position e.block
                  ⟨dlr⟩ with
              | none => .error "panic: checked_sub"
              | some (closedP, newP) =>
                runEvents o cfg mint_account swap_account
                  { st with position_info := (updateLedger st.position_info
                      token_id (ps.dropLast ++ [closedP, newP])) } rest
      | _ => .error "Next event is not a collectPool or decreaseLiquidity"
    | .increaseLiquidity _ =>
      .error "Increase liquidity event not processed in mint handling"
    | .decreaseLiquidity _ =>
      .error "Decrease liquidity event not processed in burn handling"
    | .collectPool _ =>
      runEvents o cfg mint_account swap_account st (e2 :: rest)
    | .collectNpm _ =>
      runEvents o cfg mint_account swap_account st (e2 :: rest)

/-- The per-token close-out sweep at end of stream (`mod.rs`): walk the
segments in order; at most one may still be open (second open segment is
`bail!("Multiple positions found ...")`); the open one is closed via
`pool_close_out_position` with `block_out = 0`. -/
def close_remaining (o : ChainOracle) (cfg : PoolConfig)
    (mint_account swap_account : Nat) (token_id : Nat) (closed_found : Bool) :
    List PositionInfo → Except String (List PositionInfo)
  | [] => .ok []
  | p :: ps =>
    if p.closed then
      match close_remaining o cfg mint_account swap_account token_id
          closed_found ps with
      | .error msg => .error msg
      | .ok rest => .ok (p :: rest)
    else if closed_found then
      .error "Multiple positions found for token id"
    else
      match pool_close_out_position o cfg mint_account swap_account token_id
          p 0 with
      | none => .error "panic: close_out_position_info"
      | some p' =>
        match close_remaining o cfg mint_account swap_account token_id true
            ps with
        | .error msg => .error msg
        | .ok rest => .ok (p' :: rest)

/-- End-of-stream finalization over the whole ledger. -/
def finalize_positions (o : ChainOracle) (cfg : PoolConfig)
    (mint_account swap_account : Nat) :
    List (Nat × List PositionInfo) →
    Except String (List (Nat × List PositionInfo))
  | [] => .ok []
  | (token_id, ps) :: restL =>
    match close_remaining o cfg mint_account swap_account token_id false
        ps with
    | .error msg => .error msg
    | .ok ps' =>
      match finalize_positions o cfg mint_account swap_account restL with
      | .error msg => .error msg
      | .ok r => .ok ((token_id, ps') :: r)

/-- The rows handed to `write_positions_to_csv` (`mod.rs`):
`position_info.values().flatten().filter(|p| p.liquidity_in > 0)`. -/
def output_rows (ledger : List (Nat × List PositionInfo)) :
    List PositionInfo :=
  ((ledger.map Prod.snd).flatten).filter (fun p => 0 < p.liquidity_in)

/-- `run_simulation` (`mod.rs`): two unconditional `event_iter.next()` calls
discard the leading events without inspection, then the loop runs, every
still-open segment is finalized, and the non-empty segments are emitted. -/
def run_simulation (o : ChainOracle) (cfg : PoolConfig)
    (mint_account swap_account : Nat) (events : List SimulationEvent) :
    Except String (List PositionInfo) :=
  match runEvents o cfg mint_account swap_account initSimState
      events.tail.tail with
  | .error msg => .error msg
  | .ok st =>
    match finalize_positions o cfg mint_account swap_account
        st.position_info with
    | .error msg => .error msg
    | .ok ledger => .ok (output_rows ledger)

/-! Concrete fixtures used by witnesses and counterexamples. -/

/-- A concrete pool configuration (clanker token in slot 0). -/
def cfg0 : PoolConfig :=
  { token0 := 10, token1 := 20, fee := 10000, clanker_is_token0 := true }

/-- A concrete oracle whose clanker-side fee-growth global is zero while the
weth-side one is positive, and whose read-only sell quote is nonzero. -/
def o0 : ChainOracle :=
  { quoteExactInputSingle := fun p => 2 * p.amountIn,
    exactInputSingleCall := fun _ => 7,
    decreaseLiquidityCall := fun _ => (3, 4),
    collect := fun _ => (1, 2),
    slot0 := (79228162514264337593543950336, 0),
    feeGrowthGlobal0X128 := 0,
    feeGrowthGlobal1X128 := 5 }

/-- A concrete open `Open` segment with liquidity 100. -/
def p0 : PositionInfo :=
  { token_id := 1, original_token_id := 42, lower_tick := -600,
    upper_tick := 600, index := 0, position_action := .Open, closed := false,
    block_in := 2, token_amount_in := 50, weth_amount_in := 60,
    sqrt_price_limit_x96_in := 79228162514264337593543950336, tick_in := 0,
    liquidity_in := 100, block_out := 0, token_amount_out := 0,
    weth_amount_out := 0, sqrt_price_limit_x96_out := 0, tick_out := 0,
    fees_earned_token := 0, fees_earned_weth := 0, approx_starting_weth := 67,
    approx_ending_weth := 0, end_token_gain_separate := 0,
    end_weth_gain_separate := 0, end_weth_gain_converted := 0 }

/-- A concrete increase-liquidity fusion partner (delta 40). -/
def il0 : IncreaseLiquidityWithParams :=
  { amount_0_desired := 8, amount_1_desired := 9,
    event := { tokenId := 7, liquidity := 40, amount0 := 8, amount1 := 9 } }

/-- A concrete full-close decrease event (delta 100 = `p0`'s liquidity). -/
def dlFull : DecreaseLiquidityWithParams :=
  { event := { tokenId := 7, liquidity := 100, amount0 := 8, amount1 := 9 } }

/-- A concrete non-full decrease event (delta 40 < 100). -/
def dlPart : DecreaseLiquidityWithParams :=
  { event := { tokenId := 7, liquidity := 40, amount0 := 8, amount1 := 9 } }

/-- Envelope builder for driver-level fixtures. -/
def mkSE (blk li : Nat) (ev : Event) : SimulationEvent :=
  { block := blk, tx_hash := 0, log_index := li, pool_address := 0,
    tx_from := 0, event := ev }

/-- A concrete burn event. -/
def burn0 : Burn :=
  { amount := 100, amount0 := 8, amount1 := 9, owner := 0,
    tickLower := -600, tickUpper := 600 }

/-- A concrete pool-level collect event with nonzero amounts. -/
def cp5 : CollectPool :=
  { amount0 := 5, amount1 := 7, owner := 0, recipient := 0,
    tickLower := -600, tickUpper := 600 }

/-! Helper lemmas about `close_out_position_info`. -/

/-- Closing never rewrites the opening snapshot: liquidity, input amounts and
the starting valuation survive, the closed flag and closing block are set. -/
lemma close_out_preserves (o : ChainOracle) (cfg : PoolConfig)
    (m a tid blk : Nat) (p q : PositionInfo)
    (dl : Option DecreaseLiquidityWithParams)
    (h : close_out_position_info o cfg m a tid p blk dl = some q) :
    q.liquidity_in = p.liquidity_in ∧
    q.token_amount_in = p.token_amount_in ∧
    q.weth_amount_in = p.weth_amount_in ∧
    q.approx_starting_weth = p.approx_starting_weth ∧
    q.closed = true ∧ q.block_out = blk := by
  simp only [close_out_position_info] at h
  split at h
  · exact absurd h (by simp)
  · injection h with h
    subst h
    simp

/-- With a decrease event attached, a successful close forces the event's
liquidity to not exceed the segment's. -/
lemma close_out_dl_le (o : ChainOracle) (cfg : PoolConfig)
    (m a tid blk : Nat) (p q : PositionInfo)
    (ev : DecreaseLiquidityWithParams)
    (h : close_out_position_info o cfg m a tid p blk (some ev) = some q) :
    ev.event.liquidity ≤ p.liquidity_in := by
  simp only [close_out_position_info] at h
  split at h
  · exact absurd h (by simp)
  · next outs heq =>
    split at heq
    · next hful => exact le_of_eq hful.symm
    · next hful =>
      split at heq
      · next hle => exact hle
      · exact absurd heq (by simp)

/-- Claim C1: segment liquidity continuity. A segment opened by an
increase-liquidity event carries the predecessor's liquidity plus the
event's delta; a segment opened by a decrease-liquidity event carries the
predecessor's liquidity minus the delta (zero on a full close, where the
appended segment is the zeroed terminal one). Stated additively to avoid
truncated subtraction. -/
theorem segment_liquidity_continuity
    (o : ChainOracle) (cfg : PoolConfig) (m a tid blk : Nat)
    (p cp np : PositionInfo) (il : IncreaseLiquidityWithParams)
    (dl : DecreaseLiquidityWithParams) :
    (pool_collect_fees_post_increase_liquidity o cfg m a tid p blk il
        = some (cp, np) →
      cp.liquidity_in = p.liquidity_in ∧
      np.liquidity_in = p.liquidity_in + il.event.liquidity) ∧
    (pool_collect_fees_post_decrease_liquidity o cfg m a tid p blk dl
        = some (cp, np) →
      cp.liquidity_in = p.liquidity_in ∧
      np.liquidity_in + dl.event.liquidity = p.liquidity_in) := by
  constructor
  · intro h
    simp only [pool_collect_fees_post_increase_liquidity] at h
    split at h
    · exact absurd h (by simp)
    · next c heq =>
      rw [Option.some.injEq, Prod.mk.injEq] at h
      obtain ⟨hc, hn⟩ := h
      have hpre := close_out_preserves o cfg m a tid blk p c none heq
      rw [← hc, ← hn]
      exact ⟨hpre.1, by simp [hpre.1]⟩
  · intro h
    simp only [pool_collect_fees_post_decrease_liquidity] at h
    split at h
    · exact absurd h (by simp)
    · next c heq =>
      have hpre := close_out_preserves o cfg m a tid blk p c (some dl) heq
      have hle := close_out_dl_le o cfg m a tid blk p c dl heq
      split at h
      · next hful =>
        rw [Option.some.injEq, Prod.mk.injEq] at h
        obtain ⟨hc, hn⟩ := h
        rw [← hc, ← hn]
        refine ⟨hpre.1, ?_⟩
        have h0 : dl.event.liquidity = p.liquidity_in := by
          rw [← hful, hpre.1]
        simp [h0]
      · next hful =>
        split at h
        · split at h
          · rw [Option.some.injEq, Prod.mk.injEq] at h
            obtain ⟨hc, hn⟩ := h
            rw [← hc, ← hn]
            refine ⟨hpre.1, ?_⟩
            have hle' : dl.event.liquidity ≤ c.liquidity_in := by
              rw [hpre.1]
              exact hle
            show c.liquidity_in - dl.event.liquidity + dl.event.liquidity
              = p.liquidity_in
            rw [Nat.sub_add_cancel hle', hpre.1]
          · exact absurd h (by simp)
        · exact absurd h (by simp)

/-- Witness for C1: a concrete increase by 40 on a segment with liquidity
100 yields a successor segment with liquidity 140, and a concrete partial
decrease by 40 yields a successor with liquidity 60. -/
theorem segment_liquidity_continuity_witness :
    (∃ cp np,
      pool_collect_fees_post_increase_liquidity o0 cfg0 3 4 1 p0 9 il0
        = some (cp, np) ∧
      np.liquidity_in = p0.liquidity_in + il0.event.liquidity) ∧
    (∃ cp np,
      pool_collect_fees_post_decrease_liquidity o0 cfg0 3 4 1 p0 9 dlPart
        = some (cp, np) ∧
      np.liquidity_in + dlPart.event.liquidity = p0.liquidity_in) := by
  constructor
  · cases hE : pool_collect_fees_post_increase_liquidity o0 cfg0 3 4 1 p0 9
        il0 with
    | none => exact absurd hE (by decide)
    | some pr =>
      obtain ⟨cp, np⟩ := pr
      exact ⟨cp, np, rfl,
        ((segment_liquidity_continuity o0 cfg0 3 4 1 9 p0 cp np il0
          dlPart).1 hE).2⟩
  · cases hE : pool_collect_fees_post_decrease_liquidity o0 cfg0 3 4 1 p0 9
        dlPart with
    | none => exact absurd hE (by decide)
    | some pr =>
      obtain ⟨cp, np⟩ := pr
      exact ⟨cp, np, rfl,
        ((segment_liquidity_continuity o0 cfg0 3 4 1 9 p0 cp np il0
          dlPart).2 hE).2⟩

/-- Claim C4: segment-close amount determination. Case A (decrease event
matches the full segment liquidity): the oriented event amounts are used
directly. Case B (decrease smaller than the segment liquidity): the event
amounts plus a simulated decrease of the residual liquidity. Case C (no
decrease event): a simulated decrease of the full segment liquidity. -/
theorem close_out_amount_cases (o : ChainOracle) (cfg : PoolConfig)
    (m a tid blk : Nat) (p q : PositionInfo)
    (ev : DecreaseLiquidityWithParams) :
    (ev.event.liquidity = p.liquidity_in →
      close_out_position_info o cfg m a tid p blk (some ev) = some q →
      q.token_amount_out
        = (orientPair cfg ev.event.amount0 ev.event.amount1).1 ∧
      q.weth_amount_out
        = (orientPair cfg ev.event.amount0 ev.event.amount1).2) ∧
    (ev.event.liquidity < p.liquidity_in →
      close_out_position_info o cfg m a tid p blk (some ev) = some q →
      q.token_amount_out
        = (sim_decrease_liquidity o cfg tid
            (p.liquidity_in - ev.event.liquidity)).token_out
          + (orientPair cfg ev.event.amount0 ev.event.amount1).1 ∧
      q.weth_amount_out
        = (sim_decrease_liquidity o cfg tid
            (p.liquidity_in - ev.event.liquidity)).weth_out
          + (orientPair cfg ev.event.amount0 ev.event.amount1).2) ∧
    (close_out_position_info o cfg m a tid p blk none = some q →
      q.token_amount_out
        = (sim_decrease_liquidity o cfg tid p.liquidity_in).token_out ∧
      q.weth_amount_out
        = (sim_decrease_liquidity o cfg tid p.liquidity_in).weth_out) := by
  refine ⟨?_, ?_, ?_⟩
  · intro hfull h
    simp only [close_out_position_info] at h
    split at h
    · exact absurd h (by simp)
    · next outs heq =>
      rw [Option.some.injEq] at h
      split at heq
      · rw [Option.some.injEq] at heq
        subst heq
        rw [← h]
        exact ⟨rfl, rfl⟩
      · next hc => exact absurd hfull.symm hc
  · intro hlt h
    simp only [close_out_position_info] at h
    split at h
    · exact absurd h (by simp)
    · next outs heq =>
      rw [Option.some.injEq] at h
      split at heq
      · next hc => omega
      · split at heq
        · rw [Option.some.injEq] at heq
          subst heq
          rw [← h]
          exact ⟨rfl, rfl⟩
        · next hc => omega
  · intro h
    simp only [close_out_position_info] at h
    rw [Option.some.injEq] at h
    rw [← h]
    exact ⟨rfl, rfl⟩

/-- Witness for C4: a concrete partial decrease (40 of 100) resolves via
case B, with the closing amounts equal to the event amounts plus the
simulated residual decrease. -/
theorem close_out_amount_cases_witness :
    dlPart.event.liquidity < p0.liquidity_in ∧
    ∃ q, close_out_position_info o0 cfg0 3 4 1 p0 9 (some dlPart)
        = some q ∧
      q.token_amount_out
        = (sim_decrease_liquidity o0 cfg0 1
            (p0.liquidity_in - dlPart.event.liquidity)).token_out
          + (orientPair cfg0 dlPart.event.amount0 dlPart.event.amount1).1 := by
  refine ⟨by decide, ?_⟩
  cases hE : close_out_position_info o0 cfg0 3 4 1 p0 9 (some dlPart) with
  | none => exact absurd hE (by decide)
  | some q =>
    exact ⟨q, rfl,
      ((close_out_amount_cases o0 cfg0 3 4 1 9 p0 q dlPart).2.1
        (by decide) hE).1⟩

/-- Claim C5: closing valuation. On every successful close,
`approx_ending_weth = sim_sell(token_out + token_fees) + weth_out +
weth_fees`, `sim_sell` of zero is zero, and the converted net PnL is
`approx_ending_weth - approx_starting_weth` (as 256-bit signed values). -/
theorem closing_valuation_formula (o : ChainOracle) (cfg : PoolConfig)
    (m a tid blk : Nat) (p q : PositionInfo)
    (dl : Option DecreaseLiquidityWithParams) :
    (close_out_position_info o cfg m a tid p blk dl = some q →
      q.approx_ending_weth
        = sim_swap_token_for_weth o cfg
            (q.token_amount_out + q.fees_earned_token) a
          + q.weth_amount_out + q.fees_earned_weth ∧
      q.end_weth_gain_converted
        = (q.approx_ending_weth : Int) - (q.approx_starting_weth : Int)) ∧
    sim_swap_token_for_weth o cfg 0 a = 0 := by
  constructor
  · intro h
    simp only [close_out_position_info] at h
    split at h
    · exact absurd h (by simp)
    · next outs heq =>
      rw [Option.some.injEq] at h
      rw [← h]
      exact ⟨rfl, rfl⟩
  · simp [sim_swap_token_for_weth]

/-- Witness for C5 at a concrete close. -/
theorem closing_valuation_formula_witness :
    ∃ q, close_out_position_info o0 cfg0 3 4 1 p0 9 (some dlFull)
        = some q ∧
      q.approx_ending_weth
        = sim_swap_token_for_weth o0 cfg0
            (q.token_amount_out + q.fees_earned_token) 4
          + q.weth_amount_out + q.fees_earned_weth := by
  cases hE : close_out_position_info o0 cfg0 3 4 1 p0 9 (some dlFull) with
  | none => exact absurd hE (by decide)
  | some q =>
    exact ⟨q, rfl,
      ((closing_valuation_formula o0 cfg0 3 4 1 9 p0 q (some dlFull)).1
        hE).1⟩

/-- A concrete mint event with token inputs on both sides. -/
def mint0 : Mint :=
  { amount := 100, amount0 := 100, amount1 := 50, owner := 0, sender := 0,
    tickLower := -600, tickUpper := 600 }

/-- The envelope carrying `mint0`. -/
def mintSE : SimulationEvent := mkSE 2 0 (.mint mint0)

/-- Modelled from the claim wording of C6 (deliberately NOT from the
source): the starting valuation `sim_sell(base_in) + quote_in` with the
sim-sell skipped exactly when the fee-growth globals on BOTH sides are
zero. Compared against `create_position_info_from_mint_event`. -/
def approx_starting_weth_specC6 (o : ChainOracle) (cfg : PoolConfig)
    (swap_account : Nat) (mint_event : Mint) : Nat :=
  let ins := orientPair cfg mint_event.amount0 mint_event.amount1
  let token_converted :=
    if o.feeGrowthGlobal0X128 = 0 ∧ o.feeGrowthGlobal1X128 = 0 then 0
    else sim_swap_token_for_weth o cfg ins.1 swap_account
  token_converted + ins.2

/-- Counterexample to C6 as stated: with the clanker-side fee-growth global
zero but the weth-side one positive (oracle `o0`: 0 and 5), the source skips
the sim-sell and values the start at the bare weth input (50), while the
claim's both-sides-zero guard does not trigger and adds the quoted sale
proceeds (7), giving 57. -/
theorem approx_starting_guard_cex :
    (create_position_info_from_mint_event o0 cfg0 4 mintSE 1 7).map
        PositionInfo.approx_starting_weth = some 50 ∧
    approx_starting_weth_specC6 o0 cfg0 4 mint0 = 57 ∧
    (create_position_info_from_mint_event o0 cfg0 4 mintSE 1 7).map
        PositionInfo.approx_starting_weth
      ≠ some (approx_starting_weth_specC6 o0 cfg0 4 mint0) := by
  refine ⟨by decide, by decide, by decide⟩

/-- Claim C6 amended: `approx_starting_weth = sim_sell(token_in) + weth_in`,
where the sim-sell is skipped (contributing zero) when the fee-growth global
on the CLANKER side only — `feeGrowthGlobal0X128` when the clanker token is
token0, `feeGrowthGlobal1X128` otherwise — is zero, or when the token input
is zero; the fee-growth global of the other side is never inspected (the
result is invariant under changing it). -/
theorem approx_starting_weth_guard (o : ChainOracle) (cfg : PoolConfig)
    (a tid otid : Nat) (se : SimulationEvent) (m : Mint) (q : PositionInfo) :
    (se.event = .mint m →
      create_position_info_from_mint_event o cfg a se tid otid = some q →
      ((if cfg.clanker_is_token0 then o.feeGrowthGlobal0X128
          else o.feeGrowthGlobal1X128) = 0 ∨
        (orientPair cfg m.amount0 m.amount1).1 = 0) →
      q.approx_starting_weth = (orientPair cfg m.amount0 m.amount1).2) ∧
    (se.event = .mint m →
      create_position_info_from_mint_event o cfg a se tid otid = some q →
      0 < (orientPair cfg m.amount0 m.amount1).1 ∧
        0 < (if cfg.clanker_is_token0 then o.feeGrowthGlobal0X128
          else o.feeGrowthGlobal1X128) →
      q.approx_starting_weth
        = sim_swap_token_for_weth o cfg (orientPair cfg m.amount0 m.amount1).1
            a
          + (orientPair cfg m.amount0 m.amount1).2) ∧
    (∀ v, cfg.clanker_is_token0 = true →
      create_position_info_from_mint_event
          { o with feeGrowthGlobal1X128 := v } cfg a se tid otid
        = create_position_info_from_mint_event o cfg a se tid otid) ∧
    (∀ v, cfg.clanker_is_token0 = false →
      create_position_info_from_mint_event
          { o with feeGrowthGlobal0X128 := v } cfg a se tid otid
        = create_position_info_from_mint_event o cfg a se tid otid) := by
  refine ⟨?_, ?_, ?_, ?_⟩
  · intro hm hq hz
    simp only [create_position_info_from_mint_event, hm] at hq
    rw [Option.some.injEq] at hq
    rw [← hq]
    have hcond : ¬(0 < (orientPair cfg m.amount0 m.amount1).1 ∧
        0 < (if cfg.clanker_is_token0 then o.feeGrowthGlobal0X128
          else o.feeGrowthGlobal1X128)) := by omega
    show (if 0 < (orientPair cfg m.amount0 m.amount1).1 ∧
        0 < (if cfg.clanker_is_token0 then o.feeGrowthGlobal0X128
          else o.feeGrowthGlobal1X128) then
        sim_swap_token_for_weth o cfg (orientPair cfg m.amount0 m.amount1).1 a
      else 0) + (orientPair cfg m.amount0 m.amount1).2
      = (orientPair cfg m.amount0 m.amount1).2
    rw [if_neg hcond, Nat.zero_add]
  · intro hm hq hp
    simp only [create_position_info_from_mint_event, hm] at hq
    rw [Option.some.injEq] at hq
    rw [← hq]
    show (if 0 < (orientPair cfg m.amount0 m.amount1).1 ∧
        0 < (if cfg.clanker_is_token0 then o.feeGrowthGlobal0X128
          else o.feeGrowthGlobal1X128) then
        sim_swap_token_for_weth o cfg (orientPair cfg m.amount0 m.amount1).1 a
      else 0) + (orientPair cfg m.amount0 m.amount1).2
      = sim_swap_token_for_weth o cfg (orientPair cfg m.amount0 m.amount1).1 a
        + (orientPair cfg m.amount0 m.amount1).2
    rw [if_pos hp]
  · intro v hflag
    cases hse : se.event <;>
      simp [create_position_info_from_mint_event, hse, hflag,
        sim_swap_token_for_weth]
  · intro v hflag
    cases hse : se.event <;>
      simp [create_position_info_from_mint_event, hse, hflag,
        sim_swap_token_for_weth]

/-- Witness for the amended C6: at `o0` the clanker-side global is zero, so
the concrete mint's starting value is the bare weth input. -/
theorem approx_starting_weth_guard_witness :
    (if cfg0.clanker_is_token0 then o0.feeGrowthGlobal0X128
      else o0.feeGrowthGlobal1X128) = 0 ∧
    ∃ q, create_position_info_from_mint_event o0 cfg0 4 mintSE 1 7
        = some q ∧
      q.approx_starting_weth = (orientPair cfg0 mint0.amount0 mint0.amount1).2
    := by
  refine ⟨by decide, ?_⟩
  cases hE : create_position_info_from_mint_event o0 cfg0 4 mintSE 1 7 with
  | none => exact absurd hE (by decide)
  | some q =>
    exact ⟨q, rfl,
      (approx_starting_weth_guard o0 cfg0 4 1 7 mintSE mint0 q).1 rfl hE
        (Or.inl (by decide))⟩

/-- Claim C3: swap direction disambiguation. The quoter is consulted with
the recorded absolute input and the pool fee (`quoteParamsOf`); the replay
is an exact-input-single call at the recorded input iff the quote equals the
recorded absolute output, and otherwise an exact-output-single call with the
recorded output as target and the recorded input as maximum. -/
theorem swap_direction_disambiguation (o : ChainOracle) (cfg : PoolConfig)
    (e : Swap) (swapper : Nat) :
    (o.quoteExactInputSingle (quoteParamsOf (swap_params cfg e))
        = (swap_params cfg e).amount_out ↔
      pool_swap o cfg e swapper = .exactInputSingle
        { tokenIn := (swap_params cfg e).token_in,
          tokenOut := (swap_params cfg e).token_out,
          fee := (swap_params cfg e).fee, recipient := swapper,
          amountIn := (swap_params cfg e).amount_in,
          amountOutMinimum := 0, sqrtPriceLimitX96 := 0 }) ∧
    (o.quoteExactInputSingle (quoteParamsOf (swap_params cfg e))
        ≠ (swap_params cfg e).amount_out →
      pool_swap o cfg e swapper = .exactOutputSingle
        { tokenIn := (swap_params cfg e).token_in,
          tokenOut := (swap_params cfg e).token_out,
          fee := (swap_params cfg e).fee, recipient := swapper,
          amountOut := (swap_params cfg e).amount_out,
          amountInMaximum := (swap_params cfg e).amount_in,
          sqrtPriceLimitX96 := 0 }) := by
  by_cases hq : o.quoteExactInputSingle (quoteParamsOf (swap_params cfg e))
      = (swap_params cfg e).amount_out
  · refine ⟨⟨fun _ => ?_, fun _ => hq⟩, fun hne => absurd hq hne⟩
    simp [pool_swap, swap_direction, hq]
  · refine ⟨⟨fun h => absurd h hq, fun hcall => ?_⟩, fun _ => ?_⟩
    · have hout : pool_swap o cfg e swapper = .exactOutputSingle
          { tokenIn := (swap_params cfg e).token_in,
            tokenOut := (swap_params cfg e).token_out,
            fee := (swap_params cfg e).fee, recipient := swapper,
            amountOut := (swap_params cfg e).amount_out,
            amountInMaximum := (swap_params cfg e).amount_in,
            sqrtPriceLimitX96 := 0 } := by
        simp [pool_swap, swap_direction, hq]
      rw [hcall] at hout
      exact absurd hout (by simp)
    · simp [pool_swap, swap_direction, hq]

/-- A concrete recorded swap: 100 of token0 in, 40 of token1 out. -/
def swap0 : Swap :=
  { amount0 := 100, amount1 := -40, liquidity := 5, recipient := 0,
    sender := 0, sqrtPriceX96 := 0, tick := 0 }

/-- Witness for C3: the oracle `o0` quotes 200 for input 100, which differs
from the recorded output 40, so the concrete swap replays as exact-out with
target 40 and input maximum 100. -/
theorem swap_direction_disambiguation_witness :
    o0.quoteExactInputSingle (quoteParamsOf (swap_params cfg0 swap0))
      ≠ (swap_params cfg0 swap0).amount_out ∧
    pool_swap o0 cfg0 swap0 4 = .exactOutputSingle
      { tokenIn := (swap_params cfg0 swap0).token_in,
        tokenOut := (swap_params cfg0 swap0).token_out,
        fee := (swap_params cfg0 swap0).fee, recipient := 4,
        amountOut := (swap_params cfg0 swap0).amount_out,
        amountInMaximum := (swap_params cfg0 swap0).amount_in,
        sqrtPriceLimitX96 := 0 } :=
  ⟨by decide,
    (swap_direction_disambiguation o0 cfg0 swap0 4).2 (by decide)⟩

/-! Retry-policy lemmas (C7). -/

/-- A failed-receipt or receipt-transport attempt consumes one unit of fuel. -/
lemma attempt_tx_from_fail (outs : Nat → AttemptOutcome) (i fuel : Nat)
    (h : outs i = .badStatus ∨ outs i = .receiptErr) :
    attempt_tx_from outs i (fuel + 1) = attempt_tx_from outs (i + 1) fuel := by
  rcases h with h | h <;> simp [attempt_tx_from, h]

/-- Exhausting the fuel with countable failures yields the terminal error. -/
lemma attempt_tx_from_all_fail (outs : Nat → AttemptOutcome) (fuel : Nat) :
    ∀ i, (∀ j, j < fuel →
      outs (i + j) = .badStatus ∨ outs (i + j) = .receiptErr) →
    attempt_tx_from outs i fuel = .error .exhausted := by
  induction fuel with
  | zero => intro i _; rfl
  | succ n ih =>
    intro i h
    rw [attempt_tx_from_fail outs i n (by simpa using h 0 (by omega))]
    refine ih (i + 1) (fun j hj => ?_)
    rw [show i + 1 + j = i + (j + 1) by omega]
    exact h (j + 1) (by omega)

/-- Success at attempt `k` (within fuel) after countable failures. -/
lemma attempt_tx_from_success_at (outs : Nat → AttemptOutcome) (k : Nat) :
    ∀ fuel i, k < fuel →
    (∀ j, j < k → outs (i + j) = .badStatus ∨ outs (i + j) = .receiptErr) →
    outs (i + k) = .success →
    attempt_tx_from outs i fuel = .ok () := by
  induction k with
  | zero =>
    intro fuel i hk _ hs
    cases fuel with
    | zero => omega
    | succ n => simp [attempt_tx_from, (by simpa using hs : outs i = .success)]
  | succ kn ih =>
    intro fuel i hk hfail hs
    cases fuel with
    | zero => omega
    | succ n =>
      rw [attempt_tx_from_fail outs i n (by simpa using hfail 0 (by omega))]
      refine ih n (i + 1) (by omega) (fun j hj => ?_) ?_
      · rw [show i + 1 + j = i + (j + 1) by omega]
        exact hfail (j + 1) (by omega)
      · rw [show i + 1 + kn = i + (kn + 1) by omega]
        exact hs

/-- A send-transport failure at attempt `k` (within fuel) aborts at once. -/
lemma attempt_tx_from_sendErr_at (outs : Nat → AttemptOutcome) (k : Nat) :
    ∀ fuel i, k < fuel →
    (∀ j, j < k → outs (i + j) = .badStatus ∨ outs (i + j) = .receiptErr) →
    outs (i + k) = .sendErr →
    attempt_tx_from outs i fuel = .error .transport := by
  induction k with
  | zero =>
    intro fuel i hk _ hs
    cases fuel with
    | zero => omega
    | succ n => simp [attempt_tx_from, (by simpa using hs : outs i = .sendErr)]
  | succ kn ih =>
    intro fuel i hk hfail hs
    cases fuel with
    | zero => omega
    | succ n =>
      rw [attempt_tx_from_fail outs i n (by simpa using hfail 0 (by omega))]
      refine ih n (i + 1) (by omega) (fun j hj => ?_) ?_
      · rw [show i + 1 + j = i + (j + 1) by omega]
        exact hfail (j + 1) (by omega)
      · rw [show i + 1 + kn = i + (kn + 1) by omega]
        exact hs

/-- The attempt stream whose first submission dies in transport and whose
later attempts would all succeed. -/
def outSendFirst : Nat → AttemptOutcome :=
  fun i => if i = 0 then .sendErr else .success

/-- Counterexample to C7 as stated: a transport failure during transaction
submission (`.send().await?`) is NOT counted as one of the four attempts —
it aborts immediately — whereas the claim's counting, under which every
transport failure consumes an attempt and is retried, would succeed on the
second attempt. -/
theorem retry_sendErr_not_counted_cex :
    run_tx_with_retries outSendFirst = .error .transport ∧
    run_tx_specC7 outSendFirst = .ok () ∧
    run_tx_with_retries outSendFirst ≠ run_tx_specC7 outSendFirst :=
  ⟨rfl, rfl, by
    intro h
    rw [show run_tx_with_retries outSendFirst
        = Except.error TxError.transport from rfl,
      show run_tx_specC7 outSendFirst = Except.ok () from rfl] at h
    cases h⟩

/-- Claim C7 amended: mint, increase-liquidity, collect and swap share one
loop of up to four attempts in which non-success receipts and transport
failures while awaiting the receipt count as attempts, succeeding as soon as
an attempt succeeds and aborting after the fourth counted failure; a
transport failure while submitting (`send`) aborts immediately without
consuming the remaining attempts; and the decrease-liquidity call attached
to a burn is attempted exactly once (its outcome depends only on the first
attempt), any failure being immediately fatal. -/
theorem retry_policy_bounds (outs : Nat → AttemptOutcome) (k : Nat) :
    ((∀ i, i < 4 → outs i = .badStatus ∨ outs i = .receiptErr) →
      run_tx_with_retries outs = .error .exhausted) ∧
    (k < 4 →
      (∀ i, i < k → outs i = .badStatus ∨ outs i = .receiptErr) →
      outs k = .success → run_tx_with_retries outs = .ok ()) ∧
    (k < 4 →
      (∀ i, i < k → outs i = .badStatus ∨ outs i = .receiptErr) →
      outs k = .sendErr →
      run_tx_with_retries outs = .error .transport) ∧
    (outs 0 = .success → pool_burn_tx outs = .ok ()) ∧
    (outs 0 ≠ .success → isErr (pool_burn_tx outs) = true) ∧
    (∀ outs' : Nat → AttemptOutcome, outs' 0 = outs 0 →
      pool_burn_tx outs' = pool_burn_tx outs) := by
  refine ⟨?_, ?_, ?_, ?_, ?_, ?_⟩
  · intro h
    exact attempt_tx_from_all_fail outs 4 0 (fun j hj => by
      simpa using h j hj)
  · intro hk hfail hs
    exact attempt_tx_from_success_at outs k 4 0 hk
      (fun j hj => by simpa using hfail j hj) (by simpa using hs)
  · intro hk hfail hs
    exact attempt_tx_from_sendErr_at outs k 4 0 hk
      (fun j hj => by simpa using hfail j hj) (by simpa using hs)
  · intro hs
    simp [pool_burn_tx, hs]
  · intro hs
    cases h0 : outs 0 with
    | success => exact absurd h0 hs
    | badStatus => simp [pool_burn_tx, h0, isErr]
    | receiptErr => simp [pool_burn_tx, h0, isErr]
    | sendErr => simp [pool_burn_tx, h0, isErr]
  · intro outs' h0
    simp [pool_burn_tx, h0]

/-- An attempt stream of nothing but non-success receipts. -/
def allBad : Nat → AttemptOutcome := fun _ => .badStatus

/-- Witness for the amended C7: four non-success receipts exhaust the retry
budget and abort, and a concrete failed burn attempt is immediately fatal. -/
theorem retry_policy_bounds_witness :
    (∀ i, i < 4 → allBad i = .badStatus ∨ allBad i = .receiptErr) ∧
    run_tx_with_retries allBad = .error .exhausted ∧
    isErr (pool_burn_tx allBad) = true :=
  ⟨by decide, (retry_policy_bounds allBad 0).1 (by decide),
    (retry_policy_bounds allBad 0).2.2.2.2.1 (by decide)⟩

/-- Claim C8: the event loader aborts exactly on a CollectNpm/CollectPool
count mismatch (all other failure sources of `pool_events` are row parsing,
which is out of scope of the already-parsed inputs). -/
theorem collect_count_mismatch_abort (inp : CSVInputs) :
    isErr (pool_events inp) = true ↔
      inp.collect_npm_events.length ≠ inp.collect_pool_events.length := by
  unfold pool_events
  by_cases h : inp.collect_npm_events.length
      = inp.collect_pool_events.length <;> simp [h, isErr]

/-- A concrete collect-npm event. -/
def cn0 : CollectNpm :=
  { tokenId := 1, recipient := 0, amount0 := 0, amount1 := 0 }

/-- Spec scenario E6: five CollectPool rows, four CollectNpm rows. -/
def csvBad : CSVInputs :=
  { initialize_events := [], swap_events := [], mint_events := [],
    burn_events := [],
    collect_pool_events := List.replicate 5 (mkSE 1 0 (.collectPool cp5)),
    collect_npm_events := List.replicate 4 (mkSE 1 1 (.collectNpm cn0)),
    pool_created_events := [], increase_liquidity_events := [],
    decrease_liquidity_events := [] }

/-- Matching counts: one CollectPool row and one CollectNpm row. -/
def csvGood : CSVInputs :=
  { initialize_events := [], swap_events := [], mint_events := [],
    burn_events := [],
    collect_pool_events := [mkSE 1 0 (.collectPool cp5)],
    collect_npm_events := [mkSE 1 1 (.collectNpm cn0)],
    pool_created_events := [], increase_liquidity_events := [],
    decrease_liquidity_events := [] }

/-- Witness for C8: the 5-vs-4 input aborts at load, the matching input does
not abort for this reason. -/
theorem collect_count_mismatch_abort_witness :
    isErr (pool_events csvBad) = true ∧
    isErr (pool_events csvGood) = false :=
  ⟨(collect_count_mismatch_abort csvBad).mpr (by decide), by
    cases hE : isErr (pool_events csvGood) with
    | false => rfl
    | true =>
      exact absurd ((collect_count_mismatch_abort csvGood).mp hE)
        (by decide)⟩

/-- Claim C9: output filtering. A completed run emits only rows with
positive `liquidity_in`; relative to the final ledger, every segment with
positive liquidity is emitted exactly as often as it occurs (in particular,
exactly once when it occurs once), and zero-liquidity segments are never
emitted. -/
theorem output_rows_filter_liquidity (o : ChainOracle) (cfg : PoolConfig)
    (m a : Nat) (events : List SimulationEvent) (rows : List PositionInfo)
    (ledger : List (Nat × List PositionInfo)) (p : PositionInfo) :
    (run_simulation o cfg m a events = .ok rows →
      ∀ q ∈ rows, 0 < q.liquidity_in) ∧
    (0 < p.liquidity_in →
      (output_rows ledger).count p
        = ((ledger.map Prod.snd).flatten).count p) ∧
    (p.liquidity_in = 0 → p ∉ output_rows ledger) := by
  refine ⟨?_, ?_, ?_⟩
  · intro h q hq
    unfold run_simulation at h
    split at h
    · cases h
    · split at h
      · cases h
      · rw [Except.ok.injEq] at h
        rw [← h] at hq
        rw [output_rows, List.mem_filter] at hq
        simpa using hq.2
  · intro hp
    exact List.count_filter (by simpa using hp)
  · intro hp hmem
    rw [output_rows, List.mem_filter] at hmem
    have := hmem.2
    simp [hp] at this

/-- Witness for C9: an empty stream (after the two discarded leading events)
completes with no rows, and for a concrete one-segment ledger the positive
segment is emitted once while a zeroed one is not emitted. -/
theorem output_rows_filter_liquidity_witness :
    run_simulation o0 cfg0 3 4 [mkSE 1 0 (.swap swap0),
        mkSE 1 1 (.swap swap0)] = .ok [] ∧
    (output_rows [(1, [p0])]).count p0
      = (([(1, [p0])].map Prod.snd).flatten).count p0 := by
  constructor
  · rfl
  · exact (output_rows_filter_liquidity o0 cfg0 3 4 [] [] [(1, [p0])]
      p0).2.1 (by decide)

/-- If the processed stream contains no PoolCreated event, the loop can
never produce either of the PoolCreated-branch outcomes (their error
messages arise nowhere else). -/
lemma runEvents_no_poolCreated (o : ChainOracle) (cfg : PoolConfig)
    (m a : Nat) :
    ∀ evs : List SimulationEvent, ∀ st : SimState,
    (∀ ev ∈ evs, ev.event.eventType ≠ EventType.poolCreated) →
    runEvents o cfg m a st evs ≠ .error "No events after pool created" ∧
    runEvents o cfg m a st evs
      ≠ .error "Pool initialize event was not event after pool created"
  | [], st, h => by simp [runEvents]
  | [e], st, h => by
    have he := h e (by simp)
    cases hev : e.event <;>
      simp_all [runEvents, Event.eventType]
  | e :: e2 :: rest, st, h => by
    have he := h e (by simp)
    have hrest2 : ∀ ev ∈ e2 :: rest, ev.event.eventType
        ≠ EventType.poolCreated := fun ev hm => h ev (by simp [hm])
    have hrest : ∀ ev ∈ rest, ev.event.eventType
        ≠ EventType.poolCreated := fun ev hm => h ev (by simp [hm])
    cases hev : e.event with
    | poolCreated _ => exact absurd (by rw [hev]; rfl) he
    | initializeEvt _ => simp [runEvents, hev]
    | swap _ =>
      simpa [runEvents, hev] using
        runEvents_no_poolCreated o cfg m a (e2 :: rest) st hrest2
    | collectPool _ =>
      simpa [runEvents, hev] using
        runEvents_no_poolCreated o cfg m a (e2 :: rest) st hrest2
    | collectNpm _ =>
      simpa [runEvents, hev] using
        runEvents_no_poolCreated o cfg m a (e2 :: rest) st hrest2
    | increaseLiquidity _ => simp [runEvents, hev]
    | decreaseLiquidity _ => simp [runEvents, hev]
    | mint _ =>
      simp only [runEvents, hev]
      cases hev2 : e2.event <;> simp only []
      case increaseLiquidity il =>
        cases lookupMap st.token_id_map il.event.tokenId <;> simp only []
        case some token_id =>
          cases lookupLedger st.position_info token_id <;> simp only []
          case some ps =>
            cases ps.getLast? <;> simp only []
            case some position =>
              cases pool_collect_fees_post_increase_liquidity o cfg m a
                  token_id position e.block il <;> simp only []
              case some pr =>
                exact runEvents_no_poolCreated o cfg m a rest _ hrest
              case none => simp
            case none => simp
          case none => simp
        case none =>
          cases create_position_info_from_mint_event o cfg a e
              st.next_token_id il.event.tokenId <;> simp only []
          case some position =>
            exact runEvents_no_poolCreated o cfg m a rest _ hrest
          case none => simp
      all_goals simp
    | burn _ =>
      simp only [runEvents, hev]
      cases hev2 : e2.event <;> simp only []
      case collectPool _ =>
        exact runEvents_no_poolCreated o cfg m a rest st hrest
      case decreaseLiquidity dlr =>
        cases lookupMap st.token_id_map dlr.tokenId <;> simp only []
        case some token_id =>
          cases lookupLedger st.position_info token_id <;> simp only []
          case some ps =>
            cases ps.getLast? <;> simp only []
            case some position =>
              cases pool_collect_fees_post_decrease_liquidity o cfg m a
                  token_id position e.block ⟨dlr⟩ <;> simp only []
              case some pr =>
                exact runEvents_no_poolCreated o cfg m a rest _ hrest
              case none => simp
            case none => simp
          case none => simp
        case none => simp
      all_goals simp

/-- The only error messages the close-out sweep can produce. -/
lemma close_remaining_error_msgs (o : ChainOracle) (cfg : PoolConfig)
    (m a tid : Nat) :
    ∀ (ps : List PositionInfo) (cf : Bool) (msg : String),
    close_remaining o cfg m a tid cf ps = .error msg →
    msg = "Multiple positions found for token id" ∨
      msg = "panic: close_out_position_info"
  | [], cf, msg => by simp [close_remaining]
  | p :: ps, cf, msg => by
    simp only [close_remaining]
    split
    · cases hrec : close_remaining o cfg m a tid cf ps with
      | error m2 =>
        simp only [hrec]
        intro h
        injection h with h
        subst h
        exact close_remaining_error_msgs o cfg m a tid ps cf m2 hrec
      | ok r => simp [hrec]
    · split
      · intro h
        injection h with h
        exact Or.inl h.symm
      · cases hcl : pool_close_out_position o cfg m a tid p 0 with
        | none =>
          simp only [hcl]
          intro h
          injection h with h
          exact Or.inr h.symm
        | some p' =>
          simp only [hcl]
          cases hrec : close_remaining o cfg m a tid true ps with
          | error m2 =>
            simp only [hrec]
            intro h
            injection h with h
            subst h
            exact close_remaining_error_msgs o cfg m a tid ps true m2 hrec
          | ok r => simp [hrec]

/-- The only error messages finalization can produce. -/
lemma finalize_positions_error_msgs (o : ChainOracle) (cfg : PoolConfig)
    (m a : Nat) :
    ∀ (L : List (Nat × List PositionInfo)) (msg : String),
    finalize_positions o cfg m a L = .error msg →
    msg = "Multiple positions found for token id" ∨
      msg = "panic: close_out_position_info"
  | [], msg => by simp [finalize_positions]
  | (tid, ps) :: restL, msg => by
    simp only [finalize_positions]
    cases hcr : close_remaining o cfg m a tid false ps with
    | error m2 =>
      simp only [hcr]
      intro h
      injection h with h
      subst h
      exact close_remaining_error_msgs o cfg m a tid ps false m2 hcr
    | ok ps' =>
      simp only [hcr]
      cases hrec : finalize_positions o cfg m a restL with
      | error m2 =>
        simp only [hrec]
        intro h
        injection h with h
        subst h
        exact finalize_positions_error_msgs o cfg m a restL m2 hrec
      | ok r => simp [hrec]

/-- Claim C10: `run_simulation` discards the first two events without
inspecting them: the run's result is independent of what those two events
are; in particular a stream of exactly two arbitrary events (not PoolCreated
followed by Initialize or anything else) completes silently with an empty
output; and when the remaining stream carries no PoolCreated event, the
PoolCreated/Initialize handling branches are unreachable — neither of their
outcomes can be produced. -/
theorem run_simulation_skips_first_two (o : ChainOracle) (cfg : PoolConfig)
    (m a : Nat) (e1 e2 f1 f2 : SimulationEvent)
    (rest : List SimulationEvent) :
    run_simulation o cfg m a (e1 :: e2 :: rest)
      = run_simulation o cfg m a (f1 :: f2 :: rest) ∧
    (∀ g1 g2 : SimulationEvent, run_simulation o cfg m a [g1, g2]
      = .ok []) ∧
    ((∀ ev ∈ rest, ev.event.eventType ≠ EventType.poolCreated) →
      run_simulation o cfg m a (e1 :: e2 :: rest)
          ≠ .error "No events after pool created" ∧
      run_simulation o cfg m a (e1 :: e2 :: rest)
          ≠ .error "Pool initialize event was not event after pool created")
    := by
  refine ⟨rfl, fun g1 g2 => rfl, ?_⟩
  intro hpc
  have hne := runEvents_no_poolCreated o cfg m a rest initSimState hpc
  unfold run_simulation
  simp only [List.tail_cons]
  cases hrun : runEvents o cfg m a initSimState rest with
  | error msg =>
    have hm1 : msg ≠ "No events after pool created" := fun hmm =>
      hne.1 (by rw [hrun, hmm])
    have hm2 : msg
        ≠ "Pool initialize event was not event after pool created" :=
      fun hmm => hne.2 (by rw [hrun, hmm])
    constructor
    · intro hc
      injection hc with hc
      exact hm1 hc
    · intro hc
      injection hc with hc
      exact hm2 hc
  | ok st' =>
    cases hfin : finalize_positions o cfg m a st'.position_info with
    | error msg =>
      have hd := finalize_positions_error_msgs o cfg m a st'.position_info
        msg hfin
      constructor
      · intro hc
        simp only [hfin, Except.error.injEq] at hc
        rcases hd with h | h <;> rw [h] at hc <;> exact absurd hc (by decide)
      · intro hc
        simp only [hfin, Except.error.injEq] at hc
        rcases hd with h | h <;> rw [h] at hc <;> exact absurd hc (by decide)
    | ok ledger => simp [hfin]

/-- Witness for C10: two standalone liquidity events — which the loop would
reject as ordering violations — are silently discarded when they are the
stream's first two, and the result equals that of any other two leading
events. -/
theorem run_simulation_skips_first_two_witness :
    run_simulation o0 cfg0 3 4 [mkSE 1 0 (.increaseLiquidity il0),
        mkSE 1 1 (.decreaseLiquidity dlPart.event)]
      = run_simulation o0 cfg0 3 4 [mkSE 1 0 (.swap swap0),
        mkSE 1 1 (.swap swap0)] ∧
    run_simulation o0 cfg0 3 4 [mkSE 1 0 (.increaseLiquidity il0),
        mkSE 1 1 (.decreaseLiquidity dlPart.event)] = .ok [] :=
  ⟨(run_simulation_skips_first_two o0 cfg0 3 4
      (mkSE 1 0 (.increaseLiquidity il0))
      (mkSE 1 1 (.decreaseLiquidity dlPart.event))
      (mkSE 1 0 (.swap swap0)) (mkSE 1 1 (.swap swap0)) []).1,
    (run_simulation_skips_first_two o0 cfg0 3 4
      (mkSE 1 0 (.increaseLiquidity il0))
      (mkSE 1 1 (.decreaseLiquidity dlPart.event))
      (mkSE 1 0 (.swap swap0)) (mkSE 1 1 (.swap swap0)) []).2.1
      (mkSE 1 0 (.increaseLiquidity il0))
      (mkSE 1 1 (.decreaseLiquidity dlPart.event))⟩

/-- Counterexample to C2 as stated: the burn handler pops a following
CollectPool without inspecting its amounts. A CollectPool with nonzero
amounts (5 and 7) immediately after a burn is discarded and the run
completes normally, where the claim's "discarded only when it has zero
amount" would require it not to be discarded. -/
theorem burn_collect_nonzero_discarded_cex :
    runEvents o0 cfg0 3 4 initSimState
        [mkSE 3 0 (.burn burn0), mkSE 3 1 (.collectPool cp5)]
      = .ok initSimState ∧
    cp5.amount0 = 5 ∧ cp5.amount1 = 7 :=
  ⟨rfl, rfl, rfl⟩

/-- The previous segment a decrease-close returns is the one produced by
`close_out_position_info`. -/
lemma post_decrease_close (o : ChainOracle) (cfg : PoolConfig)
    (m a tid blk : Nat) (p x y : PositionInfo)
    (dl : DecreaseLiquidityWithParams)
    (h : pool_collect_fees_post_decrease_liquidity o cfg m a tid p blk dl
      = some (x, y)) :
    close_out_position_info o cfg m a tid p blk (some dl) = some x := by
  simp only [pool_collect_fees_post_decrease_liquidity] at h
  split at h
  · exact absurd h (by simp)
  · next c heq =>
    split at h
    · rw [Option.some.injEq, Prod.mk.injEq] at h
      rw [heq, h.1]
    · split at h
      · split at h
        · rw [Option.some.injEq, Prod.mk.injEq] at h
          rw [heq, h.1]
        · exact absurd h (by simp)
      · exact absurd h (by simp)

/-- The appended segment of a decrease-close: terminal `ClosePosition` on a
full close, open `DecreaseLiquidity` on a non-full one. -/
lemma post_decrease_action (o : ChainOracle) (cfg : PoolConfig)
    (m a tid blk : Nat) (p x y : PositionInfo)
    (dl : DecreaseLiquidityWithParams)
    (h : pool_collect_fees_post_decrease_liquidity o cfg m a tid p blk dl
      = some (x, y)) :
    (dl.event.liquidity = p.liquidity_in →
      y.position_action = .ClosePosition ∧ y.closed = true) ∧
    (dl.event.liquidity ≠ p.liquidity_in →
      y.position_action = .DecreaseLiquidity ∧ y.closed = false) := by
  simp only [pool_collect_fees_post_decrease_liquidity] at h
  split at h
  · exact absurd h (by simp)
  · next c heq =>
    have hcl := close_out_preserves o cfg m a tid blk p c (some dl) heq
    split at h
    · next hful =>
      rw [Option.some.injEq, Prod.mk.injEq] at h
      constructor
      · intro _
        rw [← h.2]
        exact ⟨rfl, rfl⟩
      · intro hne
        exact absurd (by rw [← hful, hcl.1]) hne
    · next hful =>
      constructor
      · intro heqq
        exact absurd (by rw [hcl.1, ← heqq]) hful
      · intro _
        split at h
        · split at h
          · rw [Option.some.injEq, Prod.mk.injEq] at h
            rw [← h.2]
            exact ⟨rfl, rfl⟩
          · exact absurd h (by simp)
        · exact absurd h (by simp)

/-- Claim C2 amended: after a Burn the driver peeks the next event. A
CollectPool is popped and discarded regardless of its amounts (the
zero-amount fee-touch is the intended case, but the amounts are not
checked); a DecreaseLiquidity is popped and replayed as the real close:
the active segment is replaced by its closed version and the follow-up
segment is appended — a terminal `ClosePosition` segment on a full close, a
`DecreaseLiquidity` segment on a non-full one; any other next event, or a
missing one, aborts with the ordering-violation error. -/
theorem burn_next_event_fusing (o : ChainOracle) (cfg : PoolConfig)
    (m a : Nat) (st : SimState) (bse dse : SimulationEvent) (b : Burn)
    (dlr : DecreaseLiquidity) (tid : Nat) (ps : List PositionInfo)
    (p cp' np : PositionInfo) (rest : List SimulationEvent) :
    (∀ (c : CollectPool) (cpse : SimulationEvent), bse.event = .burn b →
      cpse.event = .collectPool c →
      runEvents o cfg m a st (bse :: cpse :: rest)
        = runEvents o cfg m a st rest) ∧
    (bse.event = .burn b →
      runEvents o cfg m a st [bse] = .error "No events after burn") ∧
    (∀ nxt : SimulationEvent, bse.event = .burn b →
      nxt.event.eventType ≠ EventType.collectPool →
      nxt.event.eventType ≠ EventType.decreaseLiquidity →
      runEvents o cfg m a st (bse :: nxt :: rest)
        = .error "Next event is not a collectPool or decreaseLiquidity") ∧
    (bse.event = .burn b → dse.event = .decreaseLiquidity dlr →
      lookupMap st.token_id_map dlr.tokenId = some tid →
      lookupLedger st.position_info tid = some ps →
      ps.getLast? = some p →
      pool_collect_fees_post_decrease_liquidity o cfg m a tid p bse.block
          ⟨dlr⟩ = some (cp', np) →
      runEvents o cfg m a st (bse :: dse :: rest)
        = runEvents o cfg m a
            { st with position_info := (updateLedger st.position_info tid
                (ps.dropLast ++ [cp', np])) } rest ∧
      cp'.closed = true ∧
      (dlr.liquidity = p.liquidity_in →
        np.position_action = .ClosePosition ∧ np.closed = true) ∧
      (dlr.liquidity ≠ p.liquidity_in →
        np.position_action = .DecreaseLiquidity ∧ np.closed = false)) := by
  refine ⟨?_, ?_, ?_, ?_⟩
  · intro c cpse hb hc
    simp [runEvents, hb, hc]
  · intro hb
    simp [runEvents, hb]
  · intro nxt hb hn1 hn2
    cases hn : nxt.event <;> simp_all [runEvents, Event.eventType]
  · intro hb hd hmap hled hlast hpost
    refine ⟨?_, ?_, ?_, ?_⟩
    · simp [runEvents, hb, hd, hmap, hled, hlast, hpost]
    · exact (close_out_preserves o cfg m a tid bse.block p cp' (some ⟨dlr⟩)
        (post_decrease_close o cfg m a tid bse.block p cp' np ⟨dlr⟩
          hpost)).2.2.2.2.1
    · exact (post_decrease_action o cfg m a tid bse.block p cp' np ⟨dlr⟩
        hpost).1
    · exact (post_decrease_action o cfg m a tid bse.block p cp' np ⟨dlr⟩
        hpost).2

/-- A driver state with one live position (`p0` mapped from recorded id 7). -/
def st1 : SimState :=
  { token_id_map := [(7, 1)], position_info := [(1, [p0])],
    next_token_id := 2 }

/-- Witness for the amended C2: a concrete burn fused with a non-full
decrease closes `p0` and appends a `DecreaseLiquidity` segment. -/
theorem burn_next_event_fusing_witness :
    ∃ cp' np,
      pool_collect_fees_post_decrease_liquidity o0 cfg0 3 4 1 p0 3 dlPart
        = some (cp', np) ∧
      runEvents o0 cfg0 3 4 st1 [mkSE 3 0 (.burn burn0),
          mkSE 3 1 (.decreaseLiquidity dlPart.event)]
        = runEvents o0 cfg0 3 4
            { st1 with position_info := (updateLedger st1.position_info 1
                (([p0] : List PositionInfo).dropLast ++ [cp', np])) } [] ∧
      np.position_action = .DecreaseLiquidity := by
  cases hE : pool_collect_fees_post_decrease_liquidity o0 cfg0 3 4 1 p0 3
      dlPart with
  | none => exact absurd hE (by decide)
  | some pr =>
    obtain ⟨cp', np⟩ := pr
    have hres := (burn_next_event_fusing o0 cfg0 3 4 st1
      (mkSE 3 0 (.burn burn0)) (mkSE 3 1 (.decreaseLiquidity dlPart.event))
      burn0 dlPart.event 1 [p0] p0 cp' np []).2.2.2 rfl rfl (by decide)
      (by decide) (by decide) hE
    exact ⟨cp', np, rfl, hres.1, (hres.2.2.2 (by decide)).1⟩

end FeeSim
